import Mathlib

/-!
Verification development for the Space Unicorn 16x16 LED matrix driver
(`core.py`, `simulator.py`, `main.py`, `effects.py`, `config.example.py`).

The Python sources are shallowly embedded below:
pure helpers become Lean functions, the mutable display state becomes an
explicit record threaded through the render and command functions, Python
floats are idealised as rationals, Python `int()` truncation is `pyInt`,
Python `%` on rationals is `pyMod`, randomness (`random.randint`,
`random.random`) and the floating transcendentals used by the plasma
effect (`math.sin`, `math.sqrt`) are passed in as explicit oracle
parameters, and code that can raise a Python exception is embedded in
`Except PyErr`.
-/

set_option maxRecDepth 10000

/-! ## Numeric helpers: Python `int()` truncation and `%` on rationals -/

/-- Python `int(q)` on a float/rational: truncation toward zero. -/
def pyInt (q : ℚ) : ℤ := if q < 0 then ⌈q⌉ else ⌊q⌋

/-- Python `a % b` on rationals (for the positive moduli used by the code):
`a - b * floor (a / b)`. -/
def pyMod (a b : ℚ) : ℚ := a - b * ⌊a / b⌋

/-- Wrapping a hue into `[0, 360)`, the `h = h % 360` line of `hsv_to_rgb`. -/
def wrap360 (h : ℚ) : ℚ := pyMod h 360

/-! ## Palette: `hsv_to_rgb` (identical in `core.py`, `simulator.py`, `effects.py`) -/

/-- Embedding of `hsv_to_rgb(h, s, v)` from `core.py` lines 15-35:
wrap `h` modulo 360, compute chroma `c`, intermediate `x`, match `m`,
pick the sector ordering with the six 60-degree branches, and truncate
`(component + m) * 255` to an integer with Python `int()`. -/
def hsv_to_rgb (h0 s v : ℚ) : ℤ × ℤ × ℤ :=
  let h := wrap360 h0
  let c := v * s
  let x := c * (1 - |pyMod (h / 60) 2 - 1|)
  let m := v - c
  let rgb : ℚ × ℚ × ℚ :=
    if h < 60 then (c, x, 0)
    else if h < 120 then (x, c, 0)
    else if h < 180 then (0, c, x)
    else if h < 240 then (0, x, c)
    else if h < 300 then (x, 0, c)
    else (c, 0, x)
  (pyInt ((rgb.1 + m) * 255), pyInt ((rgb.2.1 + m) * 255), pyInt ((rgb.2.2 + m) * 255))

/-- Sector-dominant channel selector used to state the six-sector rule of the
spec: for a hue in sector `[0,60)` the red channel is dominant, `[60,180)`
green, `[180,300)` blue, `[300,360)` red again. This definition follows the
spec wording and is compared against the source-derived `hsv_to_rgb`. -/
def specDominant (h : ℚ) (rgb : ℤ × ℤ × ℤ) : ℤ :=
  if wrap360 h < 60 then rgb.1
  else if wrap360 h < 120 then rgb.2.1
  else if wrap360 h < 180 then rgb.2.1
  else if wrap360 h < 240 then rgb.2.2
  else if wrap360 h < 300 then rgb.2.2
  else rgb.1

/-! ## Font and text drawing (`core.py` lines 38-117, duplicated in `simulator.py`) -/

/-- The glyph table `FONT` from `core.py` lines 39-82: each entry is the list
of five row strings, `'1'` marking a lit pixel. -/
def FONT : List (Char × List String) :=
  [('A', ["0110", "1001", "1111", "1001", "1001"]),
   ('B', ["1110", "1001", "1110", "1001", "1110"]),
   ('C', ["0111", "1000", "1000", "1000", "0111"]),
   ('D', ["1110", "1001", "1001", "1001", "1110"]),
   ('E', ["1111", "1000", "1110", "1000", "1111"]),
   ('F', ["1111", "1000", "1110", "1000", "1000"]),
   ('G', ["0111", "1000", "1011", "1001", "0111"]),
   ('H', ["1001", "1001", "1111", "1001", "1001"]),
   ('I', ["111", "010", "010", "010", "111"]),
   ('J', ["0011", "0001", "0001", "1001", "0110"]),
   ('K', ["1001", "1010", "1100", "1010", "1001"]),
   ('L', ["1000", "1000", "1000", "1000", "1111"]),
   ('M', ["10001", "11011", "10101", "10001", "10001"]),
   ('N', ["1001", "1101", "1011", "1001", "1001"]),
   ('O', ["0110", "1001", "1001", "1001", "0110"]),
   ('P', ["1110", "1001", "1110", "1000", "1000"]),
   ('Q', ["0110", "1001", "1001", "1011", "0111"]),
   ('R', ["1110", "1001", "1110", "1010", "1001"]),
   ('S', ["0111", "1000", "0110", "0001", "1110"]),
   ('T', ["11111", "00100", "00100", "00100", "00100"]),
   ('U', ["1001", "1001", "1001", "1001", "0110"]),
   ('V', ["10001", "10001", "01010", "01010", "00100"]),
   ('W', ["10001", "10001", "10101", "11011", "10001"]),
   ('X', ["1001", "1001", "0110", "1001", "1001"]),
   ('Y', ["10001", "01010", "00100", "00100", "00100"]),
   ('Z', ["1111", "0001", "0110", "1000", "1111"]),
   ('0', ["0110", "1001", "1001", "1001", "0110"]),
   ('1', ["010", "110", "010", "010", "111"]),
   ('2', ["1110", "0001", "0110", "1000", "1111"]),
   ('3', ["1110", "0001", "0110", "0001", "1110"]),
   ('4', ["1001", "1001", "1111", "0001", "0001"]),
   ('5', ["1111", "1000", "1110", "0001", "1110"]),
   ('6', ["0110", "1000", "1110", "1001", "0110"]),
   ('7', ["1111", "0001", "0010", "0100", "0100"]),
   ('8', ["0110", "1001", "0110", "1001", "0110"]),
   ('9', ["0110", "1001", "0111", "0001", "0110"]),
   (' ', ["00", "00", "00", "00", "00"]),
   ('!', ["1", "1", "1", "0", "1"]),
   (':', ["0", "1", "0", "1", "0"]),
   ('-', ["000", "000", "111", "000", "000"]),
   ('.', ["0", "0", "0", "0", "1"]),
   ('?', ["0110", "1001", "0010", "0000", "0010"])]

/-- Contribution of one (already uppercased) character to `measure_text`:
a known glyph contributes its first-row length plus 1, an unknown
character contributes 4 (`core.py` lines 89-92). -/
def charWidth (c : Char) : ℕ :=
  match FONT.lookup c with
  | some rows => (rows.headD "").length + 1
  | none => 4

/-- Embedding of `measure_text(text)` from `core.py` lines 85-93 (identical in
`simulator.py` lines 159-167): the text is uppercased (Lean's character-wise
`Char.toUpper` models Python `str.upper`) and the per-character widths are
summed. -/
def measure_text (text : String) : ℕ :=
  (text.data.map (fun c => charWidth c.toUpper)).sum

/-- One emitted `set_pixel(x, y, r, g, b)` call. Renderers below return the
list of calls they make, in call order. -/
structure Px where
  x : ℤ
  y : ℤ
  r : ℤ
  g : ℤ
  b : ℤ
deriving DecidableEq, Repr

/-- Pixels of one glyph row, walking the row characters left to right
(the inner `for col_idx, pixel in enumerate(row)` loop of `draw_char`). -/
def rowPixels (cells : List Char) (x y r g b : ℤ) : List Px :=
  match cells with
  | [] => []
  | ch :: rest => (if ch = '1' then [⟨x, y, r, g, b⟩] else []) ++ rowPixels rest (x + 1) y r g b

/-- Pixels of a whole glyph, walking the rows top to bottom
(the outer `for row_idx, row in enumerate(glyph)` loop of `draw_char`). -/
def glyphPixels (rows : List String) (x y r g b : ℤ) : List Px :=
  match rows with
  | [] => []
  | row :: rest => rowPixels row.data x y r g b ++ glyphPixels rest x (y + 1) r g b

/-- Embedding of `draw_char` from `core.py` lines 96-110: returns the emitted
pixels and the cursor advance (glyph width + 1, or 4 for unknown chars). -/
def draw_char (c : Char) (x y r g b : ℤ) : List Px × ℤ :=
  match FONT.lookup c.toUpper with
  | none => ([], 4)
  | some rows => (glyphPixels rows x y r g b, ((rows.headD "").length : ℤ) + 1)

/-- Cursor-advancing traversal of `draw_text` over the character list. -/
def drawTextAux (cs : List Char) (x y r g b : ℤ) : List Px :=
  match cs with
  | [] => []
  | c :: rest =>
    let pa := draw_char c x y r g b
    pa.1 ++ drawTextAux rest (x + pa.2) y r g b

/-- Embedding of `draw_text(set_pixel, text, x, y, r, g, b)` from `core.py`
lines 113-117. -/
def draw_text (text : String) (x y r g b : ℤ) : List Px :=
  drawTextAux text.data x y r g b

/-! ## Python values and exceptions for the sensors map -/

/-- Python exception kinds raised by the embedded code paths. Iterating a
non-dict with `.items()` and calling `.lower()` on a non-string both raise
`AttributeError`. -/
inductive PyErr where
  | attributeError : PyErr
deriving DecidableEq, Repr

/-- Decoded JSON values as produced by `json.loads`: the sensors-set handler
stores whatever `json.loads` returns, so the `sensors` field ranges over all
of these. -/
inductive JVal where
  | null : JVal
  | bool : Bool → JVal
  | num : ℚ → JVal
  | str : String → JVal
  | arr : List JVal → JVal
  | obj : List (String × JVal) → JVal

/-- Character-wise model of Python `str.lower()`. -/
def strLower (s : String) : String := ⟨s.data.map Char.toLower⟩

/-- Character-wise model of Python `str.upper()`. -/
def strUpper (s : String) : String := ⟨s.data.map Char.toUpper⟩

/-- The open predicate `status.lower() in ("open", "on", "true", "1")` of
`core.py` line 211 / `simulator.py` line 202. -/
def isOpenStatus (s : String) : Bool :=
  ["open", "on", "true", "1"].contains (strLower s)

/-- The `open_doors` accumulation loop shared by `Renderer._render_sensors`
(`core.py` lines 209-212) and `render_sensors` (`simulator.py` lines
200-204): iterate the stored sensors value with `.items()` (raising
`AttributeError` if it is not a dict), call `.lower()` on each status
(raising `AttributeError` at the first non-string status), and collect the
uppercased names of matching sensors in iteration order. -/
def openDoors (sensors : JVal) : Except PyErr (List String) :=
  match sensors with
  | .obj fields =>
    fields.foldlM (fun acc nv =>
      match nv.2 with
      | .str s => Except.ok (if isOpenStatus s then acc ++ [strUpper nv.1] else acc)
      | _ => Except.error .attributeError) []
  | _ => Except.error .attributeError

/-! ## Clock, border and sensor views -/

/-- The `"{:02d}".format(n)` zero-padding used by the clock renderers. -/
def pad2 (n : ℕ) : String := if n < 10 then "0" ++ toString n else toString n

/-- Embedding of `Renderer._render_clock` (`core.py` lines 185-204,
identical arithmetic in `simulator.py` lines 170-192): draw the
zero-padded hours centered on row 2 and minutes centered on row 9 in the
fixed color (0, 150, 120). The time source result is passed in as
`(hours, mins)`. -/
def render_clock (hours mins : ℕ) : List Px :=
  let hours_str := pad2 hours
  let mins_str := pad2 mins
  let hours_x : ℤ := (16 - (measure_text hours_str : ℤ)) / 2 + 1
  let mins_x : ℤ := (16 - (measure_text mins_str : ℤ)) / 2 + 1
  draw_text hours_str hours_x 2 0 150 120 ++ draw_text mins_str mins_x 9 0 150 120

/-- The red border drawn by `Renderer._render_sensors` when at least one
door is open (`core.py` lines 218-227): top and bottom edges, then left
and right edges. -/
def borderPixels : List Px :=
  ((List.range 16).map (fun x => [⟨(x : ℤ), 0, 255, 0, 0⟩, ⟨(x : ℤ), 15, 255, 0, 0⟩])).flatten ++
  ((List.range 16).map (fun y => [⟨0, (y : ℤ), 255, 0, 0⟩, ⟨15, (y : ℤ), 255, 0, 0⟩])).flatten

/-- Embedding of `Renderer._render_sensors` from `core.py` lines 206-227:
build the open-door list, always draw the clock, and add a red border when
any door is open. It never touches `sensor_scroll_pos`. -/
def core_render_sensors (sensors : JVal) (hours mins : ℕ) : Except PyErr (List Px) := do
  let open_doors ← openDoors sensors
  if open_doors.isEmpty then pure (render_clock hours mins)
  else pure (render_clock hours mins ++ borderPixels)

/-- Total pixel width of the open-door names, each measured with two
trailing spaces appended (`simulator.py` lines 214-216). -/
def doorsTotalWidth (doors : List String) : ℕ :=
  (doors.map (fun name => measure_text (name ++ "  "))).sum

/-- The per-door drawing loop of `simulator.py` lines 222-224: draw each
door name in red at the running x position, advancing by
`measure_text(name + "  ")`. -/
def marqueePixels (doors : List String) (x_pos : ℤ) : List Px :=
  match doors with
  | [] => []
  | name :: rest =>
    draw_text name x_pos 5 255 0 0 ++ marqueePixels rest (x_pos + measure_text (name ++ "  "))

/-- The scroll update of `simulator.py` lines 227-230: subtract the fixed
step 0.5, wrapping back to the matrix width 16 once the whole marquee has
scrolled past the left edge. -/
def simScrollStep (scroll : ℚ) (total : ℕ) : ℚ :=
  let p := scroll - 1/2
  if p < -(total : ℚ) then 16 else p

/-- Embedding of `render_sensors` from `simulator.py` lines 195-230: clock
when no door is open, otherwise a red marquee of the uppercased door names
at vertical center (`y_pos = (16 - 5) // 2 = 5`), with `sensor_scroll_pos`
advanced by the fixed step 0.5 and wrapped. Returns the emitted pixels and
the new `sensor_scroll_pos`. -/
def render_sensors (sensors : JVal) (sensor_scroll_pos : ℚ) (hours mins : ℕ) :
    Except PyErr (List Px × ℚ) := do
  let open_doors ← openDoors sensors
  if open_doors.isEmpty then
    pure (render_clock hours mins, sensor_scroll_pos)
  else
    pure (marqueePixels open_doors (pyInt sensor_scroll_pos),
          simScrollStep sensor_scroll_pos (doorsTotalWidth open_doors))

/-! ## Fire effect heat grid (`core.py` lines 260-292, `effects.py` lines 84-125) -/

/-- The heat grid: 16 columns of 16 cells, `heat[x][y]`, exactly like the
Python list-of-lists. -/
abbrev Grid : Type := List (List ℤ)

/-- Reading `heat[x][y]` (indices are always in range in the source; the
defaults are never reached on 16x16 grids). -/
def getH (g : Grid) (x y : ℕ) : ℤ := (List.getD g x []).getD y 0

/-- Writing `heat[x][y] = v`. -/
def setH (g : Grid) (x y : ℕ) (v : ℤ) : Grid :=
  List.set g x ((List.getD g x []).set y v)

/-- The initial all-zero heat grid (`DisplayState.__init__`, `core.py`
line 137). -/
def initHeat : Grid := List.replicate 16 (List.replicate 16 (0 : ℤ))

/-- Cool-down pass of the fire effect (`core.py` lines 264-267):
`heat[x][y] = max(0, heat[x][y] - random.randint(0, 3))`, with the random
amounts supplied by the oracle `cool`. -/
def fireCool (cool : ℕ → ℕ → ℤ) (g : Grid) : Grid :=
  (List.range 16).foldl (fun g x =>
    (List.range 16).foldl (fun g y => setH g x y (max 0 (getH g x y - cool x y))) g) g

/-- Rise pass of the fire effect (`core.py` lines 269-274): for each column
`x` in order, for `y` from 15 down to 1, average the three cells of row
`y - 1` (with wrap-around neighbor columns) into `heat[x][y]`. The update
is in place, so the already-updated column `x - 1` is read for `x ≥ 1`,
exactly as in the source. `(x - 1) % 16` on the ℕ range `[0, 15]` is
written `(x + 15) % 16`. -/
def fireRise (g : Grid) : Grid :=
  (List.range 16).foldl (fun g x =>
    ((List.range 15).map (fun i => 15 - i)).foldl (fun g y =>
      setH g x y ((getH g x (y - 1) + getH g ((x + 15) % 16) (y - 1) +
                   getH g ((x + 1) % 16) (y - 1)) / 3)) g) g

/-- Ignite pass of the fire effect (`core.py` lines 276-279): with the
per-column decision oracle `dec` (`random.random() < 0.7`) and amount
oracle `amt` (`random.randint(160, 255)`), add heat at row 0 clamped
to 255. -/
def fireIgnite (dec : ℕ → Bool) (amt : ℕ → ℤ) (g : Grid) : Grid :=
  (List.range 16).foldl (fun g x =>
    if dec x then setH g x 0 (min 255 (getH g x 0 + amt x)) else g) g

/-- One full fire tick: cool-down, rise, ignite. -/
def fireTick (cool : ℕ → ℕ → ℤ) (dec : ℕ → Bool) (amt : ℕ → ℤ) (g : Grid) : Grid :=
  fireIgnite dec amt (fireRise (fireCool cool g))

/-- Iterated fire ticks from the initial all-zero grid, with per-tick
randomness oracles. -/
def fireIter (cool : ℕ → ℕ → ℕ → ℤ) (dec : ℕ → ℕ → Bool) (amt : ℕ → ℕ → ℤ) : ℕ → Grid
  | 0 => initHeat
  | n + 1 => fireTick (cool n) (dec n) (amt n) (fireIter cool dec amt n)

/-- Every cell of the grid lies in `[0, 255]`. -/
def heatInRange (g : Grid) : Prop := ∀ col ∈ g, ∀ v ∈ col, 0 ≤ v ∧ v ≤ 255

/-- Color mapping and pixel emission of the fire effect (`core.py` lines
281-292): the grid is read vertically flipped, and the heat value selects
one of four color ramps. -/
def firePixels (g : Grid) : List Px :=
  ((List.range 16).map (fun y => (List.range 16).map (fun x =>
    let h := getH g x (15 - y)
    if h < 64 then Px.mk (x : ℤ) (y : ℤ) (h * 4) 0 0
    else if h < 128 then Px.mk (x : ℤ) (y : ℤ) 255 ((h - 64) * 4) 0
    else if h < 192 then Px.mk (x : ℤ) (y : ℤ) 255 255 ((h - 128) * 4)
    else Px.mk (x : ℤ) (y : ℤ) 255 255 255))).flatten

/-! ## The other effects of `core.py` -/

/-- Rainbow effect (`core.py` lines 252-258): per-pixel integer hue from
position and frame. -/
def rainbowPixels (frame : ℕ) : List Px :=
  ((List.range 16).map (fun y => (List.range 16).map (fun x =>
    let hue := (x * 20 + y * 20 + frame * 5) % 360
    let c := hsv_to_rgb (hue : ℚ) 1 1
    Px.mk (x : ℤ) (y : ℤ) c.1 c.2.1 c.2.2))).flatten

/-- Plasma effect (`core.py` lines 294-308), with `math.sin` and
`math.sqrt` supplied as oracles `sinA`/`sqrtA` (their float values are not
embeddable exactly). -/
def plasmaPixels (sinA sqrtA : ℚ → ℚ) (frame : ℕ) : List Px :=
  let t : ℚ := frame * (1/10)
  ((List.range 16).map (fun (y : ℕ) => (List.range 16).map (fun (x : ℕ) =>
    let v1 := sinA ((x : ℚ) * (1/2) + t)
    let v2 := sinA (((y : ℚ) * (1/2) + t) * (1/2))
    let v3 := sinA (((x : ℚ) * (3/10) + (y : ℚ) * (3/10) + t) * (1/2))
    let v4 := sinA (sqrtA (((x : ℚ) - 8) ^ 2 + ((y : ℚ) - 8) ^ 2) * (1/2) - t)
    let v := (v1 + v2 + v3 + v4) / 4
    let hue := pyInt ((v + 1) * 180) % 360
    let c := hsv_to_rgb (hue : ℚ) 1 1
    Px.mk (x : ℤ) (y : ℤ) c.1 c.2.1 c.2.2))).flatten

/-- One falling drop of the matrix effect (`DisplayState.__init__`,
`core.py` lines 139-140). -/
structure Drop where
  y : ℚ
  speed : ℚ
deriving DecidableEq, Repr

/-- Matrix effect (`core.py` lines 310-332): per column draw an 8-pixel
green trail above the drop head, advance the drop, and respawn it via the
oracles once it falls past `HEIGHT + 8`. Returns pixels and new drops. -/
def matrixStep (respawnY : ℕ → ℤ) (respawnSpeed : ℕ → ℚ) (drops : List Drop) :
    List Px × List Drop :=
  let rows := drops.enum.map (fun (xd : ℕ × Drop) =>
    let y := pyInt xd.2.y
    let px := (List.range 8).filterMap (fun i =>
      let trail_y := y - i
      if 0 ≤ trail_y ∧ trail_y < 16 then
        some (Px.mk (xd.1 : ℤ) trail_y 0 (max 0 (255 - (i : ℤ) * 30)) 0)
      else none)
    let ny := xd.2.y + xd.2.speed
    let d := if ny > 16 + 8 then Drop.mk (respawnY xd.1 : ℚ) (respawnSpeed xd.1)
             else Drop.mk ny xd.2.speed
    (px, d))
  ((rows.map Prod.fst).flatten, rows.map Prod.snd)

/-- One sparkle (`core.py` lines 349-354). -/
structure Sparkle where
  x : ℤ
  y : ℤ
  brightness : ℚ
  hue : ℤ
deriving DecidableEq, Repr

/-- Sparkle effect (`core.py` lines 334-359): fade every sparkle by 0.1 and
drop the ones at brightness ≤ 0, optionally spawn one new sparkle
(`spawn` is `some (x, y, hue)` when `random.random() < 0.3`), and draw all
remaining sparkles at half saturation. Returns pixels and new sparkles. -/
def sparkleStep (spawn : Option (ℤ × ℤ × ℤ)) (sparkles : List Sparkle) :
    List Px × List Sparkle :=
  let faded := (sparkles.map (fun sp => { sp with brightness := sp.brightness - 1/10 })).filter
    (fun sp => sp.brightness > 0)
  let sps := match spawn with
    | some s => faded ++ [Sparkle.mk s.1 s.2.1 1 s.2.2]
    | none => faded
  let px := sps.map (fun sp =>
    let c := hsv_to_rgb (sp.hue : ℚ) (1/2) sp.brightness
    Px.mk sp.x sp.y c.1 c.2.1 c.2.2)
  (px, sps)

/-- Gradient effect (`core.py` lines 361-369): one hue per row at value
0.8. -/
def gradientPixels (frame : ℕ) : List Px :=
  ((List.range 16).map (fun y =>
    let hue := (frame * 2 + y * 20) % 360
    let c := hsv_to_rgb (hue : ℚ) 1 (4/5)
    (List.range 16).map (fun x => Px.mk (x : ℤ) (y : ℤ) c.1 c.2.1 c.2.2))).flatten

/-! ## Scrolling text and solid fill (`core.py` lines 229-250) -/

/-- Pixels of `Renderer._render_text` (`core.py` lines 229-237): the text in
the state color at vertical center `(16 - 5) // 2 = 5`, horizontal
position `int(text_scroll_pos)`. -/
def textPixels (color : ℤ × ℤ × ℤ) (text : String) (text_scroll_pos : ℚ) : List Px :=
  draw_text text (pyInt text_scroll_pos) 5 color.1 color.2.1 color.2.2

/-- Scroll update of `Renderer._render_text` (`core.py` lines 239-243):
subtract the fixed step 0.4, wrapping back to the matrix width 16. -/
def nextTextScroll (text : String) (text_scroll_pos : ℚ) : ℚ :=
  let p := text_scroll_pos - 2/5
  if p < -(measure_text text : ℚ) then 16 else p

/-- Pixels of `Renderer._render_solid` (`core.py` lines 245-250). -/
def solidPixels (color : ℤ × ℤ × ℤ) : List Px :=
  ((List.range 16).map (fun y => (List.range 16).map (fun x =>
    Px.mk (x : ℤ) (y : ℤ) color.1 color.2.1 color.2.2))).flatten

/-! ## Display state and the core render dispatch -/

/-- Embedding of `DisplayState` (`core.py` lines 120-140). The `sensors`
field holds a decoded JSON value, exactly what the command interpreter
stores into it. -/
structure DState where
  power : Bool
  brightness : ℤ
  color : ℤ × ℤ × ℤ
  effect : String
  text : String
  sensors : JVal
  show_sensors : Bool
  frame : ℕ
  text_scroll_pos : ℚ
  sensor_scroll_pos : ℚ
  heat : Grid
  sparkles : List Sparkle
  drops : List Drop

/-- Randomness and float oracles consumed by one `Renderer.render` tick. -/
structure Rnd where
  cool : ℕ → ℕ → ℤ
  ignite : ℕ → Bool
  igniteAmt : ℕ → ℤ
  respawnY : ℕ → ℤ
  respawnSpeed : ℕ → ℚ
  sparkleSpawn : Option (ℤ × ℤ × ℤ)
  sinA : ℚ → ℚ
  sqrtA : ℚ → ℚ

/-- Embedding of `Renderer.render` (`core.py` lines 158-183): when power is
off, clear and return at once; otherwise run exactly one branch of the
`show_sensors` / effect-name / text / solid chain and then increment
`state.frame`. A Python exception in a branch propagates and skips the
frame increment. Returns the emitted pixels and the updated state. -/
def render (rnd : Rnd) (hours mins : ℕ) (st : DState) : Except PyErr (List Px × DState) :=
  if st.power = false then Except.ok ([], st)
  else
    let res : Except PyErr (List Px × DState) :=
      if st.show_sensors then
        (core_render_sensors st.sensors hours mins).map (fun px => (px, st))
      else if st.effect = "rainbow" then Except.ok (rainbowPixels st.frame, st)
      else if st.effect = "fire" then
        let g := fireTick rnd.cool rnd.ignite rnd.igniteAmt st.heat
        Except.ok (firePixels g, { st with heat := g })
      else if st.effect = "plasma" then
        Except.ok (plasmaPixels rnd.sinA rnd.sqrtA st.frame, st)
      else if st.effect = "matrix" then
        let pd := matrixStep rnd.respawnY rnd.respawnSpeed st.drops
        Except.ok (pd.1, { st with drops := pd.2 })
      else if st.effect = "sparkle" then
        let ps := sparkleStep rnd.sparkleSpawn st.sparkles
        Except.ok (ps.1, { st with sparkles := ps.2 })
      else if st.effect = "gradient" then Except.ok (gradientPixels st.frame, st)
      else if st.text ≠ "" then
        Except.ok (textPixels st.color st.text st.text_scroll_pos,
          { st with text_scroll_pos := nextTextScroll st.text st.text_scroll_pos })
      else Except.ok (solidPixels st.color, st)
    res.map (fun pr => (pr.1, { pr.2 with frame := pr.2.frame + 1 }))

/-! ## Command interpreter (`simulator.py` lines 476-527, `main.py` lines 106-165) -/

/-- Model of Python `str.strip()` used by `int()`. -/
def strStrip (s : String) : String :=
  ⟨((s.data.dropWhile Char.isWhitespace).reverse.dropWhile Char.isWhitespace).reverse⟩

/-- Value of a nonempty all-digits character list, `none` otherwise. -/
def digitsVal (cs : List Char) : Option ℕ :=
  if cs ≠ [] ∧ cs.all Char.isDigit then
    some (cs.foldl (fun a c => a * 10 + (c.toNat - 48)) 0)
  else none

/-- Model of Python `int(s)` on decimal strings: optional surrounding
whitespace, optional sign, digits; `none` models the `ValueError` the
source catches. -/
def pyParseInt (s : String) : Option ℤ :=
  match (strStrip s).data with
  | '-' :: rest => (digitsVal rest).map (fun n => -(n : ℤ))
  | '+' :: rest => (digitsVal rest).map (fun n => (n : ℤ))
  | rest => (digitsVal rest).map (fun n => (n : ℤ))

/-- Model of Python `payload.split(",")` on the character list: split at
every separator, keeping empty pieces. -/
def splitOnChar (sep : Char) (cs : List Char) : List (List Char) :=
  match cs with
  | [] => [[]]
  | c :: rest =>
    let r := splitOnChar sep rest
    if c = sep then [] :: r
    else
      match r with
      | [] => [[c]]
      | h :: t => (c :: h) :: t

/-- The color parser of the color-set branch
(`r, g, b = [int(x) for x in payload.split(",")]`): succeeds exactly when
the payload is three comma-separated integers; a non-integer piece raises
`ValueError` and a wrong arity raises the unpacking `ValueError`, both
caught by the source. -/
def parseColor (s : String) : Option (ℤ × ℤ × ℤ) :=
  match (splitOnChar ',' s.data).mapM (fun cs => pyParseInt ⟨cs⟩) with
  | some [r, g, b] => some (r, g, b)
  | _ => none

/-- The power predicate `payload.lower() in ("on", "true", "1")`. -/
def isOnPayload (s : String) : Bool := ["on", "true", "1"].contains (strLower s)

/-- Topic constants from `config.example.py` lines 16-28. -/
def MQTT_TOPIC_TEXT : String := "unicorn/text/set"

def MQTT_TOPIC_BRIGHTNESS : String := "unicorn/brightness/set"

def MQTT_TOPIC_COLOR : String := "unicorn/color/set"

def MQTT_TOPIC_EFFECT : String := "unicorn/effect/set"

def MQTT_TOPIC_POWER : String := "unicorn/power/set"

def MQTT_TOPIC_SENSORS : String := "unicorn/sensors/set"

/-- The JSON state payload assembled by `publish_state` (`simulator.py`
lines 442-455, `main.py` lines 174-186). -/
structure StateMsg where
  state : String
  brightness : ℤ
  color : ℤ × ℤ × ℤ
  effect : String
  text : String
deriving DecidableEq, Repr

/-- The `publish_state` payload for the simulator state. -/
def stateMsg (st : DState) : StateMsg :=
  ⟨if st.power then "ON" else "OFF", st.brightness, st.color, st.effect, st.text⟩

/-- Embedding of `on_message` from `simulator.py` lines 476-527. `loads` is
the `json.loads` oracle (`none` models the `ValueError`/`TypeError` the
source catches). Returns the updated state and the list of state-publish
calls made; the source calls `publish_state(client)` unconditionally at
the end, for every topic and also for ignored payloads. -/
def on_message (loads : String → Option JVal) (topic payload : String) (st : DState) :
    DState × List StateMsg :=
  let st1 :=
    if topic = MQTT_TOPIC_POWER then
      { st with power := isOnPayload payload }
    else if topic = MQTT_TOPIC_BRIGHTNESS then
      match pyParseInt payload with
      | some n => { st with brightness := n }
      | none => st
    else if topic = MQTT_TOPIC_COLOR then
      match parseColor payload with
      | some c => { st with color := c }
      | none => st
    else if topic = MQTT_TOPIC_EFFECT then
      let e := strLower payload
      if e = "clock" then
        { st with effect := "none", show_sensors := true, text := "" }
      else if e ≠ "none" then
        { st with effect := e, text := "", show_sensors := false }
      else
        { st with effect := e }
    else if topic = MQTT_TOPIC_TEXT then
      { st with text := payload, effect := "none", show_sensors := false,
                text_scroll_pos := 16 }
    else if topic = MQTT_TOPIC_SENSORS then
      match loads payload with
      | some v =>
        { st with sensors := v, show_sensors := true, text := "", effect := "none",
                  sensor_scroll_pos := 16 }
      | none => st
    else st
  (st1, [stateMsg st1])

/-- Embedding of the module-level state of `main.py` lines 22-38 that
`on_message` there mutates. `current_brightness` is the 0.0-1.0 float,
`text_scroll_position` and `sensor_scroll_pos` are Python ints in
`main.py`. -/
structure MState where
  current_text : String
  current_brightness : ℚ
  current_color : ℤ × ℤ × ℤ
  current_effect : String
  power_on : Bool
  text_scroll_position : ℤ
  sensor_status : JVal
  show_sensors : Bool
  sensor_scroll_pos : ℤ

/-- The `publish_state` payload for the `main.py` state (`main.py` lines
174-186), with `int(current_brightness * 255)` truncation. -/
def stateMsgMain (st : MState) : StateMsg :=
  ⟨if st.power_on then "ON" else "OFF", pyInt (st.current_brightness * 255),
   st.current_color, st.current_effect, st.current_text⟩

/-- Embedding of `on_message` from `main.py` lines 106-165: same command
logic as the simulator (brightness is stored as `int(msg) / 255.0`), and
`publish_state()` is likewise called unconditionally at the end. -/
def on_message_main (loads : String → Option JVal) (topic payload : String) (st : MState) :
    MState × List StateMsg :=
  let st1 :=
    if topic = MQTT_TOPIC_TEXT then
      { st with current_text := payload, text_scroll_position := 16,
                current_effect := "none", show_sensors := false }
    else if topic = MQTT_TOPIC_BRIGHTNESS then
      match pyParseInt payload with
      | some n => { st with current_brightness := (n : ℚ) / 255 }
      | none => st
    else if topic = MQTT_TOPIC_COLOR then
      match parseColor payload with
      | some c => { st with current_color := c }
      | none => st
    else if topic = MQTT_TOPIC_EFFECT then
      let e := strLower payload
      if e = "clock" then
        { st with current_effect := "none", show_sensors := true, current_text := "" }
      else if e ≠ "none" then
        { st with current_effect := e, current_text := "", show_sensors := false }
      else
        { st with current_effect := e }
    else if topic = MQTT_TOPIC_POWER then
      { st with power_on := isOnPayload payload }
    else if topic = MQTT_TOPIC_SENSORS then
      match loads payload with
      | some v =>
        { st with sensor_status := v, show_sensors := true, current_text := "",
                  current_effect := "none", sensor_scroll_pos := 16 }
      | none => st
    else st
  (st1, [stateMsgMain st1])

/-! ## The main-loop reconnect logic (`main.py` lines 449-478) -/

/-- The connection bookkeeping of the `while True` loop in `main.py`:
`last_mqtt_check` (ms), whether the MQTT session is up, and the times (ms)
at which `mqtt_client.connect()` reconnect attempts were made. -/
structure NetState where
  connected : Bool
  lastCheck : ℕ
  attempts : List ℕ
deriving DecidableEq, Repr

/-- One iteration of the `main.py` loop at time `t` ms, restricted to the
MQTT check (`main.py` lines 453-470): when more than 100 ms have passed
since `last_mqtt_check`, call `check_msg()`; with the session down this
raises `OSError` and the handler immediately attempts
`mqtt_client.connect()` in the same iteration, whose success is given by
the oracle `connectOk`. There is no delay, doubling, cap, or attempt
counter anywhere in the source. -/
def loopIter (connectOk : ℕ → Bool) (s : NetState) (t : ℕ) : NetState :=
  if 100 < t - s.lastCheck then
    if s.connected then { s with lastCheck := t }
    else { connected := connectOk s.attempts.length, lastCheck := t,
           attempts := s.attempts ++ [t] }
  else s

/-- Run `n` iterations of the loop. The loop body ends with
`time.sleep(0.01)`, so iteration `i` is modelled at time `10 * i` ms;
`last_mqtt_check` is initialised to the start time (`main.py` line 449)
and the session starts disconnected (the broker has dropped it). -/
def runLoop (connectOk : ℕ → Bool) (n : ℕ) : NetState :=
  ((List.range n).map (fun i => 10 * i)).foldl (loopIter connectOk) ⟨false, 0, []⟩

/-! ## Concrete fixtures for closed witnesses and counterexamples -/

/-- A trivial randomness/float oracle for concrete render evaluations. -/
def rnd0 : Rnd :=
  ⟨fun _ _ => 0, fun _ => false, fun _ => 160, fun _ => -8, fun _ => 1/10, none,
   fun _ => 0, fun _ => 0⟩

/-- A `json.loads` oracle that always fails (payload is not valid JSON). -/
def loadsNone : String → Option JVal := fun _ => none

/-- A `json.loads` oracle returning an empty JSON array, as
`json.loads("[]")` does. -/
def loadsArrNil : String → Option JVal := fun _ => some (JVal.arr [])

/-- A concrete display state: the `DisplayState.__init__` defaults of
`core.py` lines 122-137 with an empty `drops` list in place of the random
one. -/
def baseState : DState :=
  { power := true, brightness := 128, color := (255, 255, 255), effect := "none",
    text := "", sensors := JVal.obj [], show_sensors := true, frame := 0,
    text_scroll_pos := 16, sensor_scroll_pos := 16, heat := initHeat,
    sparkles := [], drops := [] }

/-- Display state with one open sensor and a mid-scroll cursor. -/
def stC1 : DState :=
  { baseState with sensors := JVal.obj [("a", JVal.str "open")], sensor_scroll_pos := 7 }

/-- Display state with `show_sensors = true` and `effect = "fire"` set
simultaneously. -/
def stC2 : DState := { baseState with effect := "fire", sensor_scroll_pos := 7 }

/-- A concrete `main.py` state: the module-level initial values of
`main.py` lines 22-38, with `sensor_scroll_pos` moved to 5 mid-scroll. -/
def mState0 : MState :=
  { current_text := "", current_brightness := 1/2, current_color := (255, 255, 255),
    current_effect := "none", power_on := true, text_scroll_position := 0,
    sensor_status := JVal.obj [], show_sensors := true, sensor_scroll_pos := 5 }

/-! ## Helper lemmas about the numeric models -/

theorem floorQ (r : ℚ) (z : ℤ) (h1 : (z : ℚ) ≤ r) (h2 : r < z + 1) : ⌊r⌋ = z :=
  Int.floor_eq_iff.mpr ⟨h1, h2⟩

theorem pyMod_nonneg (a b : ℚ) (hb : 0 < b) : 0 ≤ pyMod a b := by
  have h := Int.floor_le (a / b)
  have hba : b * (⌊a / b⌋ : ℚ) ≤ a := by
    have h2 := mul_le_mul_of_nonneg_left h (le_of_lt hb)
    calc b * (⌊a / b⌋ : ℚ) ≤ b * (a / b) := h2
      _ = a := by field_simp
  unfold pyMod
  linarith

theorem pyMod_lt (a b : ℚ) (hb : 0 < b) : pyMod a b < b := by
  have h := Int.lt_floor_add_one (a / b)
  have hba : a < b * (⌊a / b⌋ : ℚ) + b := by
    have h2 := mul_lt_mul_of_pos_left h hb
    have h3 : b * (a / b) = a := by field_simp
    nlinarith
  unfold pyMod
  linarith

theorem pyMod_of_lt (a b : ℚ) (h0 : 0 ≤ a) (hab : a < b) : pyMod a b = a := by
  have hb : 0 < b := lt_of_le_of_lt h0 hab
  have hfl : ⌊a / b⌋ = 0 := by
    apply floorQ
    · simpa using div_nonneg h0 (le_of_lt hb)
    · have : a / b < 1 := (div_lt_one hb).mpr hab
      simpa using this
  unfold pyMod
  rw [hfl]
  ring

theorem pyInt_eq_floor (q : ℚ) (h : 0 ≤ q) : pyInt q = ⌊q⌋ := if_neg (not_lt.mpr h)

theorem pyInt_natCast (n : ℕ) : pyInt (n : ℚ) = n := by
  rw [pyInt_eq_floor _ (by positivity)]
  simp

theorem pyInt_bounds (q : ℚ) (h0 : 0 ≤ q) (h1 : q ≤ 255) : 0 ≤ pyInt q ∧ pyInt q ≤ 255 := by
  rw [pyInt_eq_floor q h0]
  refine ⟨Int.floor_nonneg.mpr h0, ?_⟩
  have h2 := Int.floor_le_floor h1
  simpa using h2

/-! ## C9: additivity of `measure_text` -/

/-- C9: for every two strings `s` and `t`, `measure_text (s ++ t) =
measure_text s + measure_text t`; in particular `measure_text "AB" =
measure_text "A" + measure_text "B"`; each known glyph contributes its
column width plus 1 and each unknown character contributes exactly 4. -/
theorem c9_measure_text_additive :
    (∀ s t : String, measure_text (s ++ t) = measure_text s + measure_text t)
    ∧ measure_text "AB" = measure_text "A" + measure_text "B"
    ∧ measure_text "A" = 5 ∧ measure_text "B" = 5 ∧ measure_text "AB" = 10
    ∧ (∀ c rows, FONT.lookup c = some rows → charWidth c = (rows.headD "").length + 1)
    ∧ (∀ c, FONT.lookup c = none → charWidth c = 4)
    ∧ (∀ c : Char, measure_text ⟨[c]⟩ = charWidth c.toUpper) := by
  refine ⟨?_, by decide, by decide, by decide, by decide, ?_, ?_, ?_⟩
  · intro s t
    unfold measure_text
    rw [String.data_append, List.map_append, List.sum_append]
  · intro c rows hl
    unfold charWidth
    rw [hl]
  · intro c hl
    unfold charWidth
    rw [hl]
  · intro c
    unfold measure_text
    simp

/-- Witness for C9 at concrete inputs. -/
theorem c9_measure_text_additive_witness :
    measure_text ("HELLO" ++ " WORLD") = measure_text "HELLO" + measure_text " WORLD"
    ∧ FONT.lookup 'A' = some ["0110", "1001", "1111", "1001", "1001"]
    ∧ charWidth 'A' = 5
    ∧ FONT.lookup '~' = none ∧ charWidth '~' = 4 :=
  ⟨c9_measure_text_additive.1 "HELLO" " WORLD", by decide,
   by rw [c9_measure_text_additive.2.2.2.2.2.1 'A'
        ["0110", "1001", "1111", "1001", "1001"] (by decide)]; decide,
   by decide,
   c9_measure_text_additive.2.2.2.2.2.2.1 '~' (by decide)⟩

/-! ## C4: properties of `hsv_to_rgb` at full saturation and value -/

/-- C4: for every hue `h` (wrapped modulo 360 inside the function) with
`s = 1`, `v = 1`, all three channels of `hsv_to_rgb` lie in `[0, 255]`,
the sector-dominant channel (six 60-degree sectors) is exactly 255, and
the anchor hues give `h = 0 → (255,0,0)`, `h = 120 → (0,255,0)`,
`h = 240 → (0,0,255)`; the value at `h = 30` is `(255, 127, 0)`,
exhibiting truncation (rounding would give 128). -/
theorem c4_hsv_to_rgb_props :
    (∀ h : ℚ,
      (0 ≤ (hsv_to_rgb h 1 1).1 ∧ (hsv_to_rgb h 1 1).1 ≤ 255) ∧
      (0 ≤ (hsv_to_rgb h 1 1).2.1 ∧ (hsv_to_rgb h 1 1).2.1 ≤ 255) ∧
      (0 ≤ (hsv_to_rgb h 1 1).2.2 ∧ (hsv_to_rgb h 1 1).2.2 ≤ 255) ∧
      specDominant h (hsv_to_rgb h 1 1) = 255)
    ∧ hsv_to_rgb 0 1 1 = (255, 0, 0)
    ∧ hsv_to_rgb 120 1 1 = (0, 255, 0)
    ∧ hsv_to_rgb 240 1 1 = (0, 0, 255)
    ∧ hsv_to_rgb 30 1 1 = (255, 127, 0) := by
  have hA : pyInt ((1 * 1 + (1 - 1 * 1)) * 255) = 255 := by
    rw [show ((1 * 1 + (1 - 1 * 1) : ℚ)) * 255 = ((255 : ℕ) : ℚ) by norm_num, pyInt_natCast]
    norm_num
  have hC : pyInt ((0 + (1 - 1 * 1)) * 255) = 0 := by
    rw [show ((0 + (1 - 1 * 1) : ℚ)) * 255 = ((0 : ℕ) : ℚ) by norm_num, pyInt_natCast]
    norm_num
  have key : ∀ h : ℚ,
      (0 ≤ (hsv_to_rgb h 1 1).1 ∧ (hsv_to_rgb h 1 1).1 ≤ 255) ∧
      (0 ≤ (hsv_to_rgb h 1 1).2.1 ∧ (hsv_to_rgb h 1 1).2.1 ≤ 255) ∧
      (0 ≤ (hsv_to_rgb h 1 1).2.2 ∧ (hsv_to_rgb h 1 1).2.2 ≤ 255) ∧
      specDominant h (hsv_to_rgb h 1 1) = 255 := by
    intro h
    have ht0 : 0 ≤ pyMod (wrap360 h / 60) 2 := pyMod_nonneg _ _ (by norm_num)
    have ht2 : pyMod (wrap360 h / 60) 2 < 2 := pyMod_lt _ _ (by norm_num)
    have habs : |pyMod (wrap360 h / 60) 2 - 1| ≤ 1 :=
      abs_le.mpr ⟨by linarith, by linarith⟩
    have habs0 := abs_nonneg (pyMod (wrap360 h / 60) 2 - 1)
    have hB := pyInt_bounds ((1 * 1 * (1 - |pyMod (wrap360 h / 60) 2 - 1|) + (1 - 1 * 1)) * 255)
      (by nlinarith) (by nlinarith)
    have hA255 : 0 ≤ pyInt ((1 * 1 + (1 - 1 * 1)) * 255) ∧
        pyInt ((1 * 1 + (1 - 1 * 1)) * 255) ≤ 255 := by rw [hA]; norm_num
    have hC255 : 0 ≤ pyInt ((0 + (1 - 1 * 1)) * 255) ∧
        pyInt ((0 + (1 - 1 * 1)) * 255) ≤ 255 := by rw [hC]; norm_num
    simp only [hsv_to_rgb, specDominant]
    split_ifs <;> dsimp only
    · exact ⟨hA255, hB, hC255, hA⟩
    · exact ⟨hB, hA255, hC255, hA⟩
    · exact ⟨hC255, hA255, hB, hA⟩
    · exact ⟨hC255, hB, hA255, hA⟩
    · exact ⟨hB, hC255, hA255, hA⟩
    · exact ⟨hA255, hC255, hB, hA⟩
  have pyInt_127 : pyInt (255/2 : ℚ) = 127 := by
    rw [pyInt_eq_floor _ (by norm_num), floorQ (255/2) 127 (by norm_num) (by norm_num)]
  refine ⟨key, ?_, ?_, ?_, ?_⟩
  · have w : wrap360 (0:ℚ) = 0 := pyMod_of_lt 0 360 (by norm_num) (by norm_num)
    have m : pyMod (wrap360 (0:ℚ) / 60) 2 = 0 := by
      rw [w, show ((0:ℚ)/60) = 0 by norm_num]
      exact pyMod_of_lt 0 2 (by norm_num) (by norm_num)
    simp only [hsv_to_rgb]
    rw [m, w, if_pos (show (0:ℚ) < 60 by norm_num)]
    dsimp only
    rw [hA, hC,
      show ((1*1*(1 - |(0:ℚ) - 1|) + (1 - 1*1)) * 255) = ((0:ℕ):ℚ) by norm_num, pyInt_natCast]
    norm_num
  · have w : wrap360 (120:ℚ) = 120 := pyMod_of_lt 120 360 (by norm_num) (by norm_num)
    have m : pyMod (wrap360 (120:ℚ) / 60) 2 = 0 := by
      rw [w, show ((120:ℚ)/60) = 2 by norm_num]
      unfold pyMod
      rw [show ((2:ℚ)/2) = 1 by norm_num, Int.floor_one]
      norm_num
    simp only [hsv_to_rgb]
    rw [m, w, if_neg (show ¬(120:ℚ) < 60 by norm_num), if_neg (show ¬(120:ℚ) < 120 by norm_num),
        if_pos (show (120:ℚ) < 180 by norm_num)]
    dsimp only
    rw [hA, hC,
      show ((1*1*(1 - |(0:ℚ) - 1|) + (1 - 1*1)) * 255) = ((0:ℕ):ℚ) by norm_num, pyInt_natCast]
    norm_num
  · have w : wrap360 (240:ℚ) = 240 := pyMod_of_lt 240 360 (by norm_num) (by norm_num)
    have m : pyMod (wrap360 (240:ℚ) / 60) 2 = 0 := by
      rw [w, show ((240:ℚ)/60) = 4 by norm_num]
      unfold pyMod
      rw [show ((4:ℚ)/2) = 2 by norm_num]
      norm_num
    simp only [hsv_to_rgb]
    rw [m, w, if_neg (show ¬(240:ℚ) < 60 by norm_num), if_neg (show ¬(240:ℚ) < 120 by norm_num),
        if_neg (show ¬(240:ℚ) < 180 by norm_num), if_neg (show ¬(240:ℚ) < 240 by norm_num),
        if_pos (show (240:ℚ) < 300 by norm_num)]
    dsimp only
    rw [hA, hC,
      show ((1*1*(1 - |(0:ℚ) - 1|) + (1 - 1*1)) * 255) = ((0:ℕ):ℚ) by norm_num, pyInt_natCast]
    norm_num
  · have w : wrap360 (30:ℚ) = 30 := pyMod_of_lt 30 360 (by norm_num) (by norm_num)
    have m : pyMod (wrap360 (30:ℚ) / 60) 2 = 1/2 := by
      rw [w, show ((30:ℚ)/60) = 1/2 by norm_num]
      exact pyMod_of_lt (1/2) 2 (by norm_num) (by norm_num)
    simp only [hsv_to_rgb]
    rw [m, w, if_pos (show (30:ℚ) < 60 by norm_num)]
    dsimp only
    have habs : |(1/2:ℚ) - 1| = 1/2 := by
      rw [abs_of_nonpos (by norm_num : (1/2:ℚ) - 1 ≤ 0)]
      norm_num
    rw [hA, hC,
      show ((1*1*(1 - |(1/2:ℚ) - 1|) + (1 - 1*1)) * 255) = (255/2:ℚ) by rw [habs]; norm_num,
      pyInt_127]

/-! ## C3: the fire heat grid stays within bounds -/

theorem foldl_preserves {α β : Type} (P : α → Prop) (f : α → β → α) (l : List β)
    (hf : ∀ a b, P a → P (f a b)) : ∀ a, P a → P (l.foldl f a) := by
  induction l with
  | nil => exact fun _ ha => ha
  | cons x xs ih => exact fun a ha => ih _ (hf _ _ ha)

theorem getD_mem_or_default {α : Type} (l : List α) (n : ℕ) (d : α) :
    l.getD n d ∈ l ∨ l.getD n d = d := by
  rcases lt_or_le n l.length with h | h
  · left
    rw [List.getD_eq_getElem l d h]
    exact List.getElem_mem h
  · right
    exact List.getD_eq_default l d h

theorem heatInRange_getH {g : Grid} (hg : heatInRange g) (x y : ℕ) :
    0 ≤ getH g x y ∧ getH g x y ≤ 255 := by
  unfold getH
  rcases getD_mem_or_default g x [] with hcol | hcol
  · rcases getD_mem_or_default (List.getD g x []) y 0 with hv | hv
    · exact hg _ hcol _ hv
    · rw [hv]; norm_num
  · rw [hcol]
    simp only [List.getD_nil]
    norm_num

theorem heatInRange_setH {g : Grid} (hg : heatInRange g) {v : ℤ} (h0 : 0 ≤ v) (h255 : v ≤ 255)
    (x y : ℕ) : heatInRange (setH g x y v) := by
  unfold setH
  intro col hcol
  rcases List.mem_or_eq_of_mem_set hcol with hcol | rfl
  · exact hg col hcol
  · intro w hw
    rcases List.mem_or_eq_of_mem_set hw with hw | rfl
    · rcases getD_mem_or_default g x [] with hc | hc
      · exact hg _ hc _ hw
      · rw [hc] at hw
        cases hw
    · exact ⟨h0, h255⟩

theorem heatInRange_fireCool {g : Grid} (cool : ℕ → ℕ → ℤ) (hg : heatInRange g)
    (hc : ∀ x y, 0 ≤ cool x y) : heatInRange (fireCool cool g) := by
  unfold fireCool
  refine foldl_preserves _ _ _ (fun a x ha => ?_) g hg
  refine foldl_preserves _ _ _ (fun a2 y ha2 => ?_) a ha
  have hb := heatInRange_getH ha2 x y
  have hcxy := hc x y
  exact heatInRange_setH ha2 (by omega) (by omega) x y

theorem heatInRange_fireRise {g : Grid} (hg : heatInRange g) : heatInRange (fireRise g) := by
  unfold fireRise
  refine foldl_preserves _ _ _ (fun a x ha => ?_) g hg
  refine foldl_preserves _ _ _ (fun a2 y ha2 => ?_) a ha
  have h1 := heatInRange_getH ha2 x (y - 1)
  have h2 := heatInRange_getH ha2 ((x + 15) % 16) (y - 1)
  have h3 := heatInRange_getH ha2 ((x + 1) % 16) (y - 1)
  exact heatInRange_setH ha2 (by omega) (by omega) x y

theorem heatInRange_fireIgnite {g : Grid} (dec : ℕ → Bool) (amt : ℕ → ℤ) (hg : heatInRange g)
    (ha : ∀ x, 160 ≤ amt x ∧ amt x ≤ 255) : heatInRange (fireIgnite dec amt g) := by
  unfold fireIgnite
  refine foldl_preserves _ _ _ (fun a x hax => ?_) g hg
  by_cases hd : dec x
  · rw [if_pos hd]
    have hb := heatInRange_getH hax x 0
    have hax2 := ha x
    exact heatInRange_setH hax (by omega) (by omega) x 0
  · rw [if_neg hd]
    exact hax

theorem heatInRange_initHeat : heatInRange initHeat := by
  intro col hcol
  rw [initHeat, List.mem_replicate] at hcol
  intro v hv
  rw [hcol.2, List.mem_replicate] at hv
  rw [hv.2]
  norm_num

/-- C3: starting from the all-zero heat grid, for every number of fire
ticks and every outcome of the cool-down oracle (values in `[0, 3]`), the
per-column ignition decisions, and the ignition amounts (values in
`[160, 255]`), every cell of the 16x16 heat grid lies in `[0, 255]` after
every tick, and also after the intermediate cool-down and rise steps of
the next tick. -/
theorem c3_fire_heat_bounds (cool : ℕ → ℕ → ℕ → ℤ) (dec : ℕ → ℕ → Bool) (amt : ℕ → ℕ → ℤ)
    (hcool : ∀ t x y, 0 ≤ cool t x y ∧ cool t x y ≤ 3)
    (hamt : ∀ t x, 160 ≤ amt t x ∧ amt t x ≤ 255) :
    ∀ n, heatInRange (fireIter cool dec amt n)
      ∧ heatInRange (fireCool (cool n) (fireIter cool dec amt n))
      ∧ heatInRange (fireRise (fireCool (cool n) (fireIter cool dec amt n))) := by
  have iter : ∀ n, heatInRange (fireIter cool dec amt n) := by
    intro n
    induction n with
    | zero => exact heatInRange_initHeat
    | succ k ih =>
      show heatInRange
        (fireIgnite (dec k) (amt k) (fireRise (fireCool (cool k) (fireIter cool dec amt k))))
      exact heatInRange_fireIgnite (dec k) (amt k)
        (heatInRange_fireRise (heatInRange_fireCool (cool k) ih (fun x y => (hcool k x y).1)))
        (hamt k)
  intro n
  have h1 := heatInRange_fireCool (cool n) (iter n) (fun x y => (hcool n x y).1)
  exact ⟨iter n, h1, heatInRange_fireRise h1⟩

/-- Witness for C3: one tick with the cool-down constantly 1, every column
igniting, and the ignition amount constantly 200. -/
theorem c3_fire_heat_bounds_witness :
    (∀ t x y : ℕ, 0 ≤ (fun (_ _ _ : ℕ) => (1 : ℤ)) t x y ∧ (fun (_ _ _ : ℕ) => (1 : ℤ)) t x y ≤ 3)
    ∧ (∀ t x : ℕ, 160 ≤ (fun (_ _ : ℕ) => (200 : ℤ)) t x ∧ (fun (_ _ : ℕ) => (200 : ℤ)) t x ≤ 255)
    ∧ heatInRange
        (fireIter (fun (_ _ _ : ℕ) => 1) (fun (_ _ : ℕ) => true) (fun (_ _ : ℕ) => 200) 1) :=
  ⟨fun _ _ _ => by norm_num, fun _ _ => by norm_num,
   (c3_fire_heat_bounds (fun (_ _ _ : ℕ) => 1) (fun (_ _ : ℕ) => true) (fun (_ _ : ℕ) => 200)
     (fun _ _ _ => by norm_num) (fun _ _ => by norm_num) 1).1⟩

/-! ## C8: the main loop reconnect policy -/

theorem runLoop_succ (ok : ℕ → Bool) (n : ℕ) :
    runLoop ok (n + 1) = loopIter ok (runLoop ok n) (10 * n) := by
  unfold runLoop
  rw [List.range_succ, List.map_append, List.foldl_append]
  rfl

/-- C8 counterexample: with the session down and every reconnect attempt
failing, the embedded main loop makes its first twelve reconnect attempts
at times 110 ms, 220 ms, ..., 1320 ms — every delay is the fixed 110 ms
check cadence. The claimed exponential backoff sequence
1s, 2s, 4s, 8s, 16s, 32s, 60s, 60s, 60s, 60s, then 1s would place the
attempts at 1000 ms, 3000 ms, 7000 ms, ...; in particular the very first
retry delay is 110 ms, not 1000 ms. -/
theorem c8_no_backoff_counterexample :
    (runLoop (fun _ => false) 140).attempts =
      [110, 220, 330, 440, 550, 660, 770, 880, 990, 1100, 1210, 1320]
    ∧ (runLoop (fun _ => false) 140).attempts ≠
      [1000, 3000, 7000, 15000, 31000, 63000, 123000, 183000, 243000, 303000, 304000, 306000]
    ∧ (runLoop (fun _ => false) 140).attempts.getD 0 0 = 110
    ∧ (110 : ℕ) ≠ 1000 := by
  refine ⟨by decide, by decide, by decide, by decide⟩

/-- C8 amended: the `main.py` loop has no exponential backoff at all. On an
MQTT receive error it retries `connect()` immediately inside the same
iteration, so with the link up and every connect failing, the k-th
reconnect attempt happens at time `110 * (k + 1)` ms: consecutive attempts
are spaced by the constant ~110 ms message-check cadence (10 ms loop sleep,
100 ms check threshold), with no doubling, no 60 s cap, and no attempt
counter reset. -/
theorem c8_constant_retry_amended :
    ∀ n : ℕ, runLoop (fun _ => false) n =
      ⟨false, 110 * ((n - 1) / 11), (List.range ((n - 1) / 11)).map (fun k => 110 * (k + 1))⟩ := by
  intro n
  induction n with
  | zero => rfl
  | succ m ih =>
    rw [runLoop_succ, ih]
    unfold loopIter
    dsimp only
    split_ifs with h1 h2
    · exact absurd h2 (by decide)
    · have hb : (m + 1 - 1) / 11 = (m - 1) / 11 + 1 := by omega
      have hc : 10 * m = 110 * ((m - 1) / 11 + 1) := by omega
      rw [hb, List.range_succ, List.map_append, hc]
      simp only [List.map_cons, List.map_nil]
    · have hb : (m + 1 - 1) / 11 = (m - 1) / 11 := by omega
      rw [hb]

/-! ## Pixel properties of the text drawing helpers -/

theorem rowPixels_mem {cells : List Char} {x y r g b : ℤ} {p : Px}
    (hp : p ∈ rowPixels cells x y r g b) :
    p.y = y ∧ p.r = r ∧ p.g = g ∧ p.b = b := by
  induction cells generalizing x with
  | nil => cases hp
  | cons c rest ih =>
    rw [rowPixels] at hp
    rcases List.mem_append.mp hp with h | h
    · by_cases hc : c = '1'
      · rw [if_pos hc] at h
        have he := List.mem_singleton.mp h
        subst he
        exact ⟨rfl, rfl, rfl, rfl⟩
      · rw [if_neg hc] at h
        cases h
    · exact ih h

theorem glyphPixels_mem {rows : List String} {x y r g b : ℤ} {p : Px}
    (hp : p ∈ glyphPixels rows x y r g b) :
    (y ≤ p.y ∧ p.y < y + rows.length) ∧ p.r = r ∧ p.g = g ∧ p.b = b := by
  induction rows generalizing y with
  | nil => cases hp
  | cons row rest ih =>
    rw [glyphPixels] at hp
    rcases List.mem_append.mp hp with h | h
    · obtain ⟨hy, hr, hg2, hb2⟩ := rowPixels_mem h
      refine ⟨⟨by omega, ?_⟩, hr, hg2, hb2⟩
      simp only [List.length_cons]
      push_cast
      omega
    · obtain ⟨⟨h1, h2⟩, hr, hg2, hb2⟩ := ih h
      refine ⟨⟨by omega, ?_⟩, hr, hg2, hb2⟩
      simp only [List.length_cons] at h2 ⊢
      push_cast at h2 ⊢
      omega

theorem lookup_length_five : ∀ (l : List (Char × List String)),
    (∀ pr ∈ l, pr.2.length = 5) →
    ∀ c rows, List.lookup c l = some rows → rows.length = 5 := by
  intro l
  induction l with
  | nil =>
    intro _ c rows hc
    cases hc
  | cons pr rest ih =>
    obtain ⟨k, v⟩ := pr
    intro hl c rows hc
    rw [List.lookup] at hc
    split at hc
    · have hv := Option.some.inj hc
      rw [← hv]
      exact hl (k, v) (List.mem_cons_self _ _)
    · exact ih (fun q hq => hl q (List.mem_cons_of_mem _ hq)) c rows hc

theorem FONT_rows_five (c : Char) (rows : List String) (h : FONT.lookup c = some rows) :
    rows.length = 5 :=
  lookup_length_five FONT (by decide) c rows h

theorem draw_char_mem {c : Char} {x y r g b : ℤ} {p : Px}
    (hp : p ∈ (draw_char c x y r g b).1) :
    (y ≤ p.y ∧ p.y < y + 5) ∧ p.r = r ∧ p.g = g ∧ p.b = b := by
  unfold draw_char at hp
  split at hp
  · cases hp
  · next rows hl =>
    obtain ⟨⟨h1, h2⟩, hr, hg2, hb2⟩ := glyphPixels_mem hp
    rw [FONT_rows_five _ _ hl] at h2
    exact ⟨⟨h1, by exact_mod_cast h2⟩, hr, hg2, hb2⟩

theorem drawTextAux_mem {cs : List Char} {x y r g b : ℤ} {p : Px}
    (hp : p ∈ drawTextAux cs x y r g b) :
    (y ≤ p.y ∧ p.y < y + 5) ∧ p.r = r ∧ p.g = g ∧ p.b = b := by
  induction cs generalizing x with
  | nil => cases hp
  | cons c rest ih =>
    simp only [drawTextAux] at hp
    rcases List.mem_append.mp hp with h | h
    · exact draw_char_mem h
    · exact ih h

theorem draw_text_mem {text : String} {x y r g b : ℤ} {p : Px}
    (hp : p ∈ draw_text text x y r g b) :
    (y ≤ p.y ∧ p.y < y + 5) ∧ p.r = r ∧ p.g = g ∧ p.b = b :=
  drawTextAux_mem hp

theorem marqueePixels_mem {doors : List String} {xp : ℤ} {p : Px}
    (hp : p ∈ marqueePixels doors xp) :
    p.r = 255 ∧ p.g = 0 ∧ p.b = 0 ∧ 5 ≤ p.y ∧ p.y ≤ 9 := by
  induction doors generalizing xp with
  | nil => cases hp
  | cons name rest ih =>
    rw [marqueePixels] at hp
    rcases List.mem_append.mp hp with h | h
    · obtain ⟨⟨h1, h2⟩, hr, hg2, hb2⟩ := draw_text_mem h
      exact ⟨hr, hg2, hb2, h1, by omega⟩
    · exact ih h

theorem render_clock_mem {hours mins : ℕ} {p : Px} (hp : p ∈ render_clock hours mins) :
    p.r = 0 ∧ p.g = 150 ∧ p.b = 120 ∧ ((2 ≤ p.y ∧ p.y ≤ 6) ∨ (9 ≤ p.y ∧ p.y ≤ 13)) := by
  simp only [render_clock] at hp
  rcases List.mem_append.mp hp with h | h
  · obtain ⟨⟨h1, h2⟩, hr, hg2, hb2⟩ := draw_text_mem h
    exact ⟨hr, hg2, hb2, Or.inl ⟨h1, by omega⟩⟩
  · obtain ⟨⟨h1, h2⟩, hr, hg2, hb2⟩ := draw_text_mem h
    exact ⟨hr, hg2, hb2, Or.inr ⟨h1, by omega⟩⟩

theorem pad2_length : ∀ n : ℕ, n < 100 → (pad2 n).length = 2 := by decide

/-! ## C1: the sensor/clock view -/

/-- C1 amended: when no sensor status matches the open predicate, both the
simulator renderer (`render_sensors`) and the core renderer
(`Renderer._render_sensors`) draw the clock: zero-padded 2-digit hours at
row 2 and minutes at row 9 (glyph rows 2-6 and 9-13), fixed color
(0, 150, 120). When at least one sensor matches, the simulator draws the
uppercased names as a red (255, 0, 0) marquee at vertical center (rows
5-9) and advances `sensor_scroll_pos` by the fixed step 0.5 (wrapping to
16); the core renderer instead keeps the clock, adds a red border, and
leaves `sensor_scroll_pos` untouched. -/
theorem c1_sensor_view_amended (sensors : JVal) (doors : List String) (scroll : ℚ)
    (hours mins : ℕ) (hdoors : openDoors sensors = Except.ok doors) :
    (doors = [] →
      render_sensors sensors scroll hours mins = Except.ok (render_clock hours mins, scroll)
      ∧ core_render_sensors sensors hours mins = Except.ok (render_clock hours mins))
    ∧ (doors ≠ [] →
      render_sensors sensors scroll hours mins =
        Except.ok (marqueePixels doors (pyInt scroll),
                   simScrollStep scroll (doorsTotalWidth doors))
      ∧ (∀ p ∈ marqueePixels doors (pyInt scroll),
          p.r = 255 ∧ p.g = 0 ∧ p.b = 0 ∧ 5 ≤ p.y ∧ p.y ≤ 9)
      ∧ (simScrollStep scroll (doorsTotalWidth doors) = scroll - 1/2
         ∨ simScrollStep scroll (doorsTotalWidth doors) = 16)
      ∧ core_render_sensors sensors hours mins =
          Except.ok (render_clock hours mins ++ borderPixels))
    ∧ (∀ p ∈ render_clock hours mins,
        p.r = 0 ∧ p.g = 150 ∧ p.b = 120 ∧ ((2 ≤ p.y ∧ p.y ≤ 6) ∨ (9 ≤ p.y ∧ p.y ≤ 13)))
    ∧ (hours < 100 → (pad2 hours).length = 2)
    ∧ (mins < 100 → (pad2 mins).length = 2) := by
  refine ⟨?_, ?_, fun p hp => render_clock_mem hp, pad2_length hours, pad2_length mins⟩
  · intro hd
    subst hd
    constructor
    · simp [render_sensors, hdoors, bind, Except.bind, pure, Except.pure]
    · simp [core_render_sensors, hdoors, bind, Except.bind, pure, Except.pure]
  · intro hd
    have hne : doors.isEmpty = false := by
      cases doors with
      | nil => exact absurd rfl hd
      | cons a l => rfl
    refine ⟨?_, fun p hp => marqueePixels_mem hp, ?_, ?_⟩
    · simp [render_sensors, hdoors, bind, Except.bind, hne, pure, Except.pure]
    · simp only [simScrollStep]
      split_ifs with hw
      · right
        rfl
      · left
        rfl
    · simp [core_render_sensors, hdoors, bind, Except.bind, hne, pure, Except.pure]

/-- C1 counterexample: with exactly one matching sensor, the core
`Renderer.render` tick emits the teal clock plus the red border — pixel
(0, 0) is drawn red (outside the vertical-center marquee band), the clock
pixels are (0, 150, 120) rather than red, and `sensor_scroll_pos` stays
at 7 instead of advancing by a fixed step. -/
theorem c1_core_border_counterexample :
    openDoors stC1.sensors = Except.ok ["A"]
    ∧ render rnd0 12 34 stC1 =
        Except.ok (render_clock 12 34 ++ borderPixels, { stC1 with frame := 1 })
    ∧ ({ stC1 with frame := 1 }).sensor_scroll_pos = stC1.sensor_scroll_pos
    ∧ stC1.sensor_scroll_pos = 7
    ∧ Px.mk 0 0 255 0 0 ∈ borderPixels
    ∧ (render_clock 12 34).any (fun p => p.r == 0 && p.g == 150 && p.b == 120) = true
    ∧ ¬ (∀ p ∈ render_clock 12 34 ++ borderPixels, p.r = 255 ∧ p.g = 0 ∧ p.b = 0) := by
  refine ⟨rfl, rfl, rfl, rfl, by decide, by decide, by decide⟩

/-- Witness for C1 at concrete inputs: a two-sensor map with "front" open
scrolls the marquee, and an all-closed map shows the clock. -/
theorem c1_sensor_view_amended_witness :
    render_sensors (JVal.obj [("front", JVal.str "open"), ("back", JVal.str "closed")])
        7 12 34 =
      Except.ok (marqueePixels ["FRONT"] (pyInt 7),
                 simScrollStep 7 (doorsTotalWidth ["FRONT"]))
    ∧ core_render_sensors (JVal.obj [("front", JVal.str "closed"), ("back", JVal.str "closed")])
        12 34 = Except.ok (render_clock 12 34) :=
  ⟨((c1_sensor_view_amended (JVal.obj [("front", JVal.str "open"), ("back", JVal.str "closed")])
      ["FRONT"] 7 12 34 rfl).2.1 (by decide)).1,
   ((c1_sensor_view_amended (JVal.obj [("front", JVal.str "closed"), ("back", JVal.str "closed")])
      [] 7 12 34 rfl).1 rfl).2⟩

/-! ## C2: mode selection and per-branch mutation in `Renderer.render` -/

/-- C2 amended: exactly one branch executes per render call, following the
fixed precedence power off > `show_sensors` > named effect > text > solid.
With `show_sensors = true` the sensor/clock view renders regardless of
`effect` and `text` (in particular fire does not run and `heat` is
untouched), and the branch that runs mutates only its own animation
memory or scroll cursor — except that `Renderer.render` additionally
increments the shared `frame` counter on every powered tick, whichever
branch ran. -/
theorem c2_mode_precedence_amended :
    (∀ rnd hours mins st, st.power = false →
      render rnd hours mins st = Except.ok ([], st))
    ∧ (∀ rnd hours mins st spx, st.power = true → st.show_sensors = true →
        core_render_sensors st.sensors hours mins = Except.ok spx →
        render rnd hours mins st = Except.ok (spx, { st with frame := st.frame + 1 }))
    ∧ (∀ rnd hours mins st, st.power = true → st.show_sensors = false → st.effect = "fire" →
        render rnd hours mins st =
          Except.ok (firePixels (fireTick rnd.cool rnd.ignite rnd.igniteAmt st.heat),
            { st with heat := fireTick rnd.cool rnd.ignite rnd.igniteAmt st.heat,
                      frame := st.frame + 1 }))
    ∧ (∀ rnd hours mins st, st.power = true → st.show_sensors = false →
        st.effect ∉ (["rainbow", "fire", "plasma", "matrix", "sparkle", "gradient"] : List String) →
        st.text ≠ "" →
        render rnd hours mins st =
          Except.ok (textPixels st.color st.text st.text_scroll_pos,
            { st with text_scroll_pos := nextTextScroll st.text st.text_scroll_pos,
                      frame := st.frame + 1 }))
    ∧ (∀ rnd hours mins st, st.power = true → st.show_sensors = false →
        st.effect ∉ (["rainbow", "fire", "plasma", "matrix", "sparkle", "gradient"] : List String) →
        st.text = "" →
        render rnd hours mins st =
          Except.ok (solidPixels st.color, { st with frame := st.frame + 1 })) := by
  refine ⟨?_, ?_, ?_, ?_, ?_⟩
  · intro rnd hours mins st hp
    simp [render, hp]
  · intro rnd hours mins st spx hp hs hsp
    simp [render, hp, hs, hsp, Except.map]
  · intro rnd hours mins st hp hs he
    simp [render, hp, hs, he, Except.map]
  · intro rnd hours mins st hp hs he ht
    simp only [List.mem_cons, List.not_mem_nil, or_false, not_or] at he
    obtain ⟨h1, h2, h3, h4, h5, h6⟩ := he
    simp [render, hp, hs, h1, h2, h3, h4, h5, h6, ht, Except.map]
  · intro rnd hours mins st hp hs he ht
    simp only [List.mem_cons, List.not_mem_nil, or_false, not_or] at he
    obtain ⟨h1, h2, h3, h4, h5, h6⟩ := he
    simp [render, hp, hs, h1, h2, h3, h4, h5, h6, ht, Except.map]

/-- C2 counterexample: with `show_sensors = true` and `effect = "fire"` set
simultaneously, the sensor/clock branch runs and `heat` is untouched, yet
the render call still mutates Display State outside the branch that ran:
the shared `frame` counter — the animation memory of the rainbow, plasma
and gradient branches — advances from 0 to 1. -/
theorem c2_frame_mutation_counterexample :
    stC2.show_sensors = true ∧ stC2.effect = "fire" ∧ stC2.frame = 0
    ∧ render rnd0 12 34 stC2 = Except.ok (render_clock 12 34, { stC2 with frame := 1 })
    ∧ ({ stC2 with frame := 1 }).heat = stC2.heat
    ∧ ({ stC2 with frame := 1 }).frame ≠ stC2.frame := by
  refine ⟨rfl, rfl, rfl, rfl, rfl, by decide⟩

/-- Witness for C2: the sensors-over-fire precedence and the fire branch at
concrete states. -/
theorem c2_mode_precedence_amended_witness :
    render rnd0 12 34 stC2 =
      Except.ok (render_clock 12 34, { stC2 with frame := stC2.frame + 1 })
    ∧ render rnd0 12 34 { stC2 with show_sensors := false } =
      Except.ok (firePixels (fireTick rnd0.cool rnd0.ignite rnd0.igniteAmt stC2.heat),
        { stC2 with show_sensors := false,
                    heat := fireTick rnd0.cool rnd0.ignite rnd0.igniteAmt stC2.heat,
                    frame := stC2.frame + 1 }) := by
  constructor
  · exact c2_mode_precedence_amended.2.1 rnd0 12 34 stC2 (render_clock 12 34) rfl rfl rfl
  · exact c2_mode_precedence_amended.2.2.1 rnd0 12 34 { stC2 with show_sensors := false }
      rfl rfl rfl

/-! ## C5: state publication on every handled message -/

/-- C5 counterexample: a brightness command whose payload fails integer
parsing causes no Display-State transition (the state comes back
unchanged), yet the handler still publishes the state —
`publish_state` is called unconditionally at the end of `on_message`,
both in the simulator and in `main.py`. -/
theorem c5_publish_on_ignored_counterexample :
    pyParseInt "abc" = none
    ∧ on_message loadsNone MQTT_TOPIC_BRIGHTNESS "abc" baseState =
        (baseState, [stateMsg baseState])
    ∧ on_message_main loadsNone MQTT_TOPIC_BRIGHTNESS "abc" mState0 =
        (mState0, [stateMsgMain mState0]) :=
  ⟨rfl, rfl, rfl⟩

/-- C5 amended: a state-publish side effect occurs after every handled
command event — the handler always publishes exactly one state message
reflecting the post-command state, for every topic and payload, including
ignored malformed payloads, which re-publish the unchanged state. -/
theorem c5_publish_always_amended :
    (∀ loads topic payload st,
      (on_message loads topic payload st).2 =
        [stateMsg (on_message loads topic payload st).1])
    ∧ (∀ loads payload st, pyParseInt payload = none →
      on_message loads MQTT_TOPIC_BRIGHTNESS payload st = (st, [stateMsg st]))
    ∧ (∀ loads topic payload st,
      (on_message_main loads topic payload st).2 =
        [stateMsgMain (on_message_main loads topic payload st).1])
    ∧ (∀ loads payload st, pyParseInt payload = none →
      on_message_main loads MQTT_TOPIC_BRIGHTNESS payload st = (st, [stateMsgMain st])) := by
  refine ⟨fun loads topic payload st => rfl, ?_, fun loads topic payload st => rfl, ?_⟩
  · intro loads payload st hp
    simp [on_message, MQTT_TOPIC_BRIGHTNESS, MQTT_TOPIC_POWER, hp]
  · intro loads payload st hp
    simp [on_message_main, MQTT_TOPIC_BRIGHTNESS, MQTT_TOPIC_TEXT, hp]

/-- Witness for C5 amended at concrete inputs. -/
theorem c5_publish_always_amended_witness :
    (on_message loadsNone MQTT_TOPIC_POWER "off" baseState).2 =
      [stateMsg (on_message loadsNone MQTT_TOPIC_POWER "off" baseState).1]
    ∧ pyParseInt "oops" = none
    ∧ on_message loadsNone MQTT_TOPIC_BRIGHTNESS "oops" baseState =
        (baseState, [stateMsg baseState])
    ∧ on_message_main loadsNone MQTT_TOPIC_BRIGHTNESS "oops" mState0 =
        (mState0, [stateMsgMain mState0]) :=
  ⟨c5_publish_always_amended.1 loadsNone MQTT_TOPIC_POWER "off" baseState, rfl,
   c5_publish_always_amended.2.1 loadsNone "oops" baseState rfl,
   c5_publish_always_amended.2.2.2 loadsNone "oops" mState0 rfl⟩

/-! ## C6: malformed payloads are silently ignored -/

/-- C6: a non-integer brightness payload, a color payload that is not three
comma-separated integers (such as "10,20"), and a sensors payload that is
not valid JSON each leave the whole Display State unchanged, in the
simulator and in `main.py`. No error reaches the remote caller: the
handlers are total functions (the parse failures are caught), and the only
outward effect is the unconditional state publication. -/
theorem c6_malformed_payloads_ignored :
    (∀ loads payload st, pyParseInt payload = none →
      (on_message loads MQTT_TOPIC_BRIGHTNESS payload st).1 = st)
    ∧ (∀ loads payload st, parseColor payload = none →
      (on_message loads MQTT_TOPIC_COLOR payload st).1 = st)
    ∧ (∀ loads payload st, loads payload = none →
      (on_message loads MQTT_TOPIC_SENSORS payload st).1 = st)
    ∧ parseColor "10,20" = none
    ∧ pyParseInt "abc" = none
    ∧ (∀ loads payload st, pyParseInt payload = none →
      (on_message_main loads MQTT_TOPIC_BRIGHTNESS payload st).1 = st)
    ∧ (∀ loads payload st, parseColor payload = none →
      (on_message_main loads MQTT_TOPIC_COLOR payload st).1 = st)
    ∧ (∀ loads payload st, loads payload = none →
      (on_message_main loads MQTT_TOPIC_SENSORS payload st).1 = st) := by
  refine ⟨?_, ?_, ?_, by decide, by decide, ?_, ?_, ?_⟩
  · intro loads payload st hp
    simp [on_message, MQTT_TOPIC_BRIGHTNESS, MQTT_TOPIC_POWER, hp]
  · intro loads payload st hp
    simp [on_message, MQTT_TOPIC_COLOR, MQTT_TOPIC_POWER, MQTT_TOPIC_BRIGHTNESS, hp]
  · intro loads payload st hp
    simp [on_message, MQTT_TOPIC_SENSORS, MQTT_TOPIC_POWER, MQTT_TOPIC_BRIGHTNESS,
      MQTT_TOPIC_COLOR, MQTT_TOPIC_EFFECT, MQTT_TOPIC_TEXT, hp]
  · intro loads payload st hp
    simp [on_message_main, MQTT_TOPIC_BRIGHTNESS, MQTT_TOPIC_TEXT, hp]
  · intro loads payload st hp
    simp [on_message_main, MQTT_TOPIC_COLOR, MQTT_TOPIC_TEXT, MQTT_TOPIC_BRIGHTNESS, hp]
  · intro loads payload st hp
    simp [on_message_main, MQTT_TOPIC_SENSORS, MQTT_TOPIC_POWER, MQTT_TOPIC_BRIGHTNESS,
      MQTT_TOPIC_COLOR, MQTT_TOPIC_EFFECT, MQTT_TOPIC_TEXT, hp]

/-- Witness for C6 at concrete malformed payloads. -/
theorem c6_malformed_payloads_ignored_witness :
    pyParseInt "abc" = none
    ∧ (on_message loadsNone MQTT_TOPIC_BRIGHTNESS "abc" baseState).1 = baseState
    ∧ parseColor "10,20" = none
    ∧ (on_message loadsNone MQTT_TOPIC_COLOR "10,20" baseState).1 = baseState
    ∧ loadsNone "not json" = none
    ∧ (on_message loadsNone MQTT_TOPIC_SENSORS "not json" baseState).1 = baseState
    ∧ (on_message_main loadsNone MQTT_TOPIC_COLOR "10,20" mState0).1 = mState0 :=
  ⟨rfl, c6_malformed_payloads_ignored.1 loadsNone "abc" baseState rfl, rfl,
   c6_malformed_payloads_ignored.2.1 loadsNone "10,20" baseState rfl, rfl,
   c6_malformed_payloads_ignored.2.2.1 loadsNone "not json" baseState rfl,
   c6_malformed_payloads_ignored.2.2.2.2.2.2.1 loadsNone "10,20" mState0 rfl⟩

/-! ## C7: scroll cursor re-seeding on mode entry -/

/-- C7 counterexample: the effect-set command with payload "clock" enters
sensor/clock mode (`show_sensors` becomes true) but does not reseed the
owning scroll cursor: `sensor_scroll_pos` stays at its previous mid-scroll
value (7 in the simulator state, 5 in the `main.py` state) instead of
being reset to the matrix width 16. -/
theorem c7_clock_no_reseed_counterexample :
    (on_message loadsNone MQTT_TOPIC_EFFECT "clock" stC1).1.show_sensors = true
    ∧ stC1.sensor_scroll_pos = 7
    ∧ (on_message loadsNone MQTT_TOPIC_EFFECT "clock" stC1).1.sensor_scroll_pos = 7
    ∧ (7 : ℚ) ≠ 16
    ∧ (on_message_main loadsNone MQTT_TOPIC_EFFECT "clock" mState0).1.show_sensors = true
    ∧ (on_message_main loadsNone MQTT_TOPIC_EFFECT "clock" mState0).1.sensor_scroll_pos = 5
    ∧ (5 : ℤ) ≠ 16 :=
  ⟨rfl, rfl, rfl, by norm_num, rfl, rfl, by decide⟩

/-- C7 amended: the text-set transition reseeds `text_scroll_pos` to the
matrix width 16, and a successful sensors-set transition reseeds
`sensor_scroll_pos` to 16; but the effect-set "clock" transition enters
sensor/clock mode without reseeding `sensor_scroll_pos` (it keeps its
previous value), in both the simulator and `main.py`. -/
theorem c7_scroll_reseed_amended :
    (∀ loads payload st,
      (on_message loads MQTT_TOPIC_TEXT payload st).1.text_scroll_pos = 16)
    ∧ (∀ loads payload st v, loads payload = some v →
      (on_message loads MQTT_TOPIC_SENSORS payload st).1.sensor_scroll_pos = 16
      ∧ (on_message loads MQTT_TOPIC_SENSORS payload st).1.show_sensors = true)
    ∧ (∀ loads payload st, strLower payload = "clock" →
      (on_message loads MQTT_TOPIC_EFFECT payload st).1.show_sensors = true
      ∧ (on_message loads MQTT_TOPIC_EFFECT payload st).1.sensor_scroll_pos =
          st.sensor_scroll_pos)
    ∧ (∀ loads payload st,
      (on_message_main loads MQTT_TOPIC_TEXT payload st).1.text_scroll_position = 16)
    ∧ (∀ loads payload st v, loads payload = some v →
      (on_message_main loads MQTT_TOPIC_SENSORS payload st).1.sensor_scroll_pos = 16)
    ∧ (∀ loads payload st, strLower payload = "clock" →
      (on_message_main loads MQTT_TOPIC_EFFECT payload st).1.show_sensors = true
      ∧ (on_message_main loads MQTT_TOPIC_EFFECT payload st).1.sensor_scroll_pos =
          st.sensor_scroll_pos) := by
  refine ⟨?_, ?_, ?_, ?_, ?_, ?_⟩
  · intro loads payload st
    simp [on_message, MQTT_TOPIC_TEXT, MQTT_TOPIC_POWER, MQTT_TOPIC_BRIGHTNESS,
      MQTT_TOPIC_COLOR, MQTT_TOPIC_EFFECT]
  · intro loads payload st v hl
    constructor <;>
      simp [on_message, MQTT_TOPIC_SENSORS, MQTT_TOPIC_POWER, MQTT_TOPIC_BRIGHTNESS,
        MQTT_TOPIC_COLOR, MQTT_TOPIC_EFFECT, MQTT_TOPIC_TEXT, hl]
  · intro loads payload st hl
    constructor <;>
      simp [on_message, MQTT_TOPIC_EFFECT, MQTT_TOPIC_POWER, MQTT_TOPIC_BRIGHTNESS,
        MQTT_TOPIC_COLOR, hl]
  · intro loads payload st
    simp [on_message_main, MQTT_TOPIC_TEXT]
  · intro loads payload st v hl
    simp [on_message_main, MQTT_TOPIC_SENSORS, MQTT_TOPIC_POWER, MQTT_TOPIC_BRIGHTNESS,
      MQTT_TOPIC_COLOR, MQTT_TOPIC_EFFECT, MQTT_TOPIC_TEXT, hl]
  · intro loads payload st hl
    constructor <;>
      simp [on_message_main, MQTT_TOPIC_EFFECT, MQTT_TOPIC_TEXT, MQTT_TOPIC_BRIGHTNESS,
        MQTT_TOPIC_COLOR, hl]

/-- Witness for C7 at concrete inputs. -/
theorem c7_scroll_reseed_amended_witness :
    (on_message loadsNone MQTT_TOPIC_TEXT "HI" stC1).1.text_scroll_pos = 16
    ∧ loadsArrNil "[]" = some (JVal.arr [])
    ∧ (on_message loadsArrNil MQTT_TOPIC_SENSORS "[]" stC1).1.sensor_scroll_pos = 16
    ∧ strLower "CLOCK" = "clock"
    ∧ (on_message loadsNone MQTT_TOPIC_EFFECT "CLOCK" stC1).1.sensor_scroll_pos =
        stC1.sensor_scroll_pos
    ∧ (on_message_main loadsNone MQTT_TOPIC_TEXT "HI" mState0).1.text_scroll_position = 16 :=
  ⟨c7_scroll_reseed_amended.1 loadsNone "HI" stC1, rfl,
   (c7_scroll_reseed_amended.2.1 loadsArrNil "[]" stC1 (JVal.arr []) rfl).1, rfl,
   (c7_scroll_reseed_amended.2.2.1 loadsNone "CLOCK" stC1 rfl).2,
   c7_scroll_reseed_amended.2.2.2.1 loadsNone "HI" mState0⟩

/-! ## C10: unvalidated sensors payloads break the sensor render -/

/-- C10: the sensors-set handler stores any successfully decoded JSON value
without checking that it is a map from names to status strings, and forces
sensor mode on. When the stored value is a JSON array, the next sensor
render — which iterates the value with `.items()` and lowercases each
status — raises `AttributeError` instead of producing pixels, in both the
simulator renderer and the core renderer; a JSON object whose first value
is a number likewise raises. -/
theorem c10_sensors_accept_nonmap_render_raises :
    (∀ loads payload st xs scroll hours mins, loads payload = some (JVal.arr xs) →
      (on_message loads MQTT_TOPIC_SENSORS payload st).1.sensors = JVal.arr xs
      ∧ (on_message loads MQTT_TOPIC_SENSORS payload st).1.show_sensors = true
      ∧ render_sensors (JVal.arr xs) scroll hours mins = Except.error PyErr.attributeError
      ∧ core_render_sensors (JVal.arr xs) hours mins = Except.error PyErr.attributeError)
    ∧ (∀ name q rest hours mins,
      core_render_sensors (JVal.obj ((name, JVal.num q) :: rest)) hours mins =
        Except.error PyErr.attributeError) := by
  constructor
  · intro loads payload st xs scroll hours mins hl
    refine ⟨?_, ?_, rfl, rfl⟩ <;>
      simp [on_message, MQTT_TOPIC_SENSORS, MQTT_TOPIC_POWER, MQTT_TOPIC_BRIGHTNESS,
        MQTT_TOPIC_COLOR, MQTT_TOPIC_EFFECT, MQTT_TOPIC_TEXT, hl]
  · intro name q rest hours mins
    rfl

/-- Witness for C10: storing `json.loads("[]")` and rendering it. -/
theorem c10_sensors_accept_nonmap_render_raises_witness :
    loadsArrNil "[]" = some (JVal.arr [])
    ∧ (on_message loadsArrNil MQTT_TOPIC_SENSORS "[]" baseState).1.sensors = JVal.arr []
    ∧ render_sensors (JVal.arr []) 16 12 34 = Except.error PyErr.attributeError
    ∧ core_render_sensors (JVal.obj [("a", JVal.num 1)]) 12 34 =
        Except.error PyErr.attributeError :=
  ⟨rfl,
   ((c10_sensors_accept_nonmap_render_raises.1 loadsArrNil "[]" baseState [] 16 12 34) rfl).1,
   ((c10_sensors_accept_nonmap_render_raises.1 loadsArrNil "[]" baseState [] 16 12 34) rfl).2.2.1,
   c10_sensors_accept_nonmap_render_raises.2 "a" 1 [] 12 34⟩
